import Mathlib

/-!
Verification development for the pSecret terminal visual-effects program.

The Python sources are shallowly embedded: pure fragments become Lean
functions, the mutable `ViewConnector` object becomes an explicit state
record threaded through the functions, the curses surface (an external
collaborator) is modelled as a finite map from coordinates to the last
character written there, and randomness (`random.choice`, `random.randrange`)
is modelled by oracle arguments supplying the values the library would have
drawn.  Machine integers of Python are unbounded, so `Int` is used directly.
-/

namespace PSecret

/-- Model of Python `str.isprintable()` restricted to the alphabet this
program ever feeds it: ASCII (printable exactly for code points 32..126)
plus the non-ASCII characters appearing in the layout strings and the
progress bar, all of which are printable in Python. -/
def pyIsPrintable (c : Char) : Bool :=
  (32 ≤ c.toNat && c.toNat ≤ 126) ||
    (['─', '│', '┌', '┐', '└', '┘', '·', '▓'].contains c)

/-- Model of Python `str.isspace()` on a single character, for the ASCII
whitespace characters (the only ones this program can encounter). -/
def pyIsWhitespace (c : Char) : Bool :=
  [' ', '\t', '\n', '\x0B', '\x0C', '\r'].contains c

/-- The `PixelColor` enum of `view.py`: logical color names mapped to curses
color-pair IDs 1..7. -/
inductive PixelColor where
  | RED
  | GREEN
  | YELLOW
  | BLUE
  | MAGENTA
  | CYAN
  | WHITE
deriving DecidableEq

/-- The enum value (curses color-pair ID) of a `PixelColor`. -/
def PixelColor.value : PixelColor → Nat
  | .RED => 1
  | .GREEN => 2
  | .YELLOW => 3
  | .BLUE => 4
  | .MAGENTA => 5
  | .CYAN => 6
  | .WHITE => 7

/-- The list `list(PixelColor)` in declaration order, as iterated by
`random.choice` in `__get_color`. -/
def pixelColorList : List PixelColor :=
  [.RED, .GREEN, .YELLOW, .BLUE, .MAGENTA, .CYAN, .WHITE]

/-- A screen coordinate `(x, y)`, value-equality identity, as the keys of the
pixel buffer dictionary in `view.py`. -/
abbrev Coordinate := Int × Int

/-- The rendered content at a coordinate: `(char, color)` as stored in
`ViewConnector.__pixel_buffer`. -/
abbrev Cell := Char × PixelColor

/-- Association-list lookup, modelling Python `dict` access with unique keys. -/
def alistLookup {α β : Type} [DecidableEq α] : List (α × β) → α → Option β
  | [], _ => none
  | (k', v) :: rest, k => if k' = k then some v else alistLookup rest k

/-- Association-list key removal, modelling `dict.pop(key, None)`. -/
def alistErase {α β : Type} [DecidableEq α] (l : List (α × β)) (k : α) :
    List (α × β) :=
  l.filter (fun kv => decide (kv.1 ≠ k))

/-- Association-list insertion/overwrite, modelling `dict[key] = value`. -/
def alistInsert {α β : Type} [DecidableEq α] (l : List (α × β)) (k : α) (v : β) :
    List (α × β) :=
  (k, v) :: alistErase l k

/-- The `{(x, y): (char, color)}` dictionary `ViewConnector.__pixel_buffer`. -/
abbrev PixelBuffer := List (Coordinate × Cell)

/-- Model of the curses surface (the external Render Port of the spec): the
last character successfully written at each coordinate.  A coordinate absent
from the list has never been written and therefore shows blank. -/
abbrev Surface := List (Coordinate × Char)

/-- One successful character write on the curses surface. -/
def surfWrite (surf : Surface) (k : Coordinate) (c : Char) : Surface :=
  alistInsert surf k c

/-- Whether the surface shows blank content at a coordinate: never written,
or last written a space. -/
def surfBlank (surf : Surface) (k : Coordinate) : Bool :=
  match alistLookup surf k with
  | none => true
  | some c => c = ' '

/-- The constant `PRINTABLES` of `view.py`: all characters of Python's
`string.printable` that are not whitespace, in `string.printable` order
(digits, lowercase letters, uppercase letters, punctuation).  Each group is
a contiguous run of ASCII code points, written here by code point to keep
the list kernel-computable. -/
def PRINTABLES : List Char :=
  ((List.range' 48 10) ++ (List.range' 97 26) ++ (List.range' 65 26) ++
    (List.range' 33 15) ++ (List.range' 58 7) ++ (List.range' 91 6) ++
    (List.range' 123 4)).map Char.ofNat

/-- Model of `ViewConnector.__get_pixel`: `random.choice(PRINTABLES)`.  The
oracle `n` stands for the random draw; `random.choice` indexes the sequence
with a uniform index, modelled as `n % length`. -/
def get_pixel (n : Nat) : Char :=
  PRINTABLES.getD (n % PRINTABLES.length) '0'

/-- Model of `ViewConnector.__get_color`: `random.choice(list(PixelColor))`,
with the oracle `n` standing for the random draw. -/
def get_color (n : Nat) : PixelColor :=
  pixelColorList.getD (n % pixelColorList.length) .RED

/-- Model of `ViewConnector.__draw_pixel` acting on the pixel buffer and the
curses surface.  `px` is the `pixel` string argument (a Python `str`, so a
list of characters), `fail` tells whether the `stdscr.addch` call raises
`curses.error` (the Render Port boundary failure of the spec).  Returns the
new buffer, the new surface, and whether `addch` was invoked.

Faithful to the source: bounds check, then the single-printable-character
check, then the already-taken check; the buffer entry is inserted before
the write (except for a space character, never buffered); on `curses.error`
the entry is popped back unless the write was at the bottom-right corner
`(width-1, height-1)`, where the error is the classic curses quirk and the
character has in fact landed on the surface (so the surface is updated there
even on `fail`, per the spec's reading of the quirk). -/
def draw_pixel (w h : Int) (buf : PixelBuffer) (surf : Surface)
    (px : List Char) (color : PixelColor) (x y : Int) (fail : Bool) :
    PixelBuffer × Surface × Bool :=
  if ¬ (0 ≤ x ∧ x < w ∧ 0 ≤ y ∧ y < h) then (buf, surf, false)
  else if ¬ (px.length = 1 ∧ px.all pyIsPrintable) then (buf, surf, false)
  else
    match px with
    | [c] =>
      if (alistLookup buf (x, y)).isSome then (buf, surf, false)
      else
        let buf1 := if c ≠ ' ' then alistInsert buf (x, y) (c, color) else buf
        if fail then
          if (x, y) ≠ (w - 1, h - 1) then
            (alistErase buf1 (x, y), surf, true)
          else
            (buf1, surfWrite surf (x, y) c, true)
        else
          (buf1, surfWrite surf (x, y) c, true)
    | _ => (buf, surf, false)

/-- The `BOX_STATUS` template string of `layout.py`. -/
def BOX_STATUS : String :=
  "┌──                                STATUS                                ──┐\n" ++
  "│                                                                          │\n" ++
  "│ Cluster                                                                  │\n" ++
  "│ ········································································ │\n" ++
  "│                          Elapsed Time  00:00:00                          │\n" ++
  "│                                                                          │\n" ++
  "│                                                                          │\n" ++
  "│                                                                          │\n" ++
  "│                                                                          │\n" ++
  "│                                                                          │\n" ++
  "└──────────────────────────────────────────────────────────────────────────┘\n"

/-- The `BOX_INFORMATION` template string of `layout.py`. -/
def BOX_INFORMATION : String :=
  "┌──────────────────────────────────────────────────────────────────────────┐\n" ++
  "│                                                                          │\n" ++
  "│                                                                          │\n" ++
  "│                                                                          │\n" ++
  "│                                                                          │\n" ++
  "│                                                                          │\n" ++
  "│                                                                          │\n" ++
  "│                                                                          │\n" ++
  "│                                                                          │\n" ++
  "│                                                                          │\n" ++
  "└──────────────────────────────────────────────────────────────────────────┘\n"

/-- Gap constants of `layout.py`. -/
def TOP_GAP : Int := 1

/-- Bottom gap constant of `layout.py` (spelled `BOTTON_GAP` there). -/
def BOTTON_GAP : Int := 1

/-- Side gap constant of `layout.py`. -/
def SIDE_GAP : Int := 1

/-- Vertical middle gap constant of `layout.py`. -/
def VERTICAL_MIDDLE_GAP : Int := 2

/-- Offset of the cluster counter inside the status box (`layout.py`). -/
def CLUSTER_COUNT_ORIGIN_X_DELTA : Int := 10

/-- Offset of the cluster counter inside the status box (`layout.py`). -/
def CLUSTER_COUNT_ORIGIN_Y_DELTA : Int := 2

/-- Offset of the percentage bar inside the status box (`layout.py`). -/
def PERCENTAGE_BAR_ORIGIN_X_DELTA : Int := 2

/-- Offset of the percentage bar inside the status box (`layout.py`). -/
def PERCENTAGE_BAR_ORIGIN_Y_DELTA : Int := 3

/-- The `BoxKind` enum of `layout.py`. -/
inductive BoxKind where
  | BOX_STATUS
  | BOX_INFORMATION
  | BOX_DEFRAG
  | BOX_SMALL_SCREEN_ERROR
deriving DecidableEq

/-- The `TextBlock` dataclass of `layout.py`. -/
structure TextBlock where
  text : String
  origin_x : Int
  origin_y : Int
  kind : BoxKind
deriving DecidableEq

/-- Split a character list at newline characters (every line, including a
trailing empty one when the text ends in a newline). -/
def splitOnNewline : List Char → List (List Char)
  | [] => [[]]
  | '\n' :: rest => [] :: splitOnNewline rest
  | c :: rest =>
    match splitOnNewline rest with
    | [] => [[c]]
    | l :: ls => (c :: l) :: ls

/-- Model of Python `str.splitlines()` for texts whose only line break is
`'\n'` (true of every string this program splits): like `splitOnNewline`
but a terminating newline produces no trailing empty line, and the empty
string has no lines. -/
def pySplitlines (s : String) : List (List Char) :=
  let parts := splitOnNewline s.toList
  if parts.getLast? = some [] then parts.dropLast else parts

/-- Model of `LayoutManager.measure_text_block`: `(width, height)` of a
multi-line block, width the longest line, height the number of lines,
`(0, 0)` for an empty text. -/
def measure_text_block (text : String) : Int × Int :=
  let lines := pySplitlines text
  if lines.isEmpty then (0, 0)
  else (Int.ofNat ((lines.map List.length).foldl max 0), Int.ofNat lines.length)

/-- Model of `LayoutManager.build_box`: a rectangular ASCII-art box of the
given width and height, each line ending in a newline; empty when either
dimension is below 2. -/
def build_box (width height : Int) : String :=
  if width < 2 ∨ height < 2 then ""
  else
    let top := "┌" ++ String.mk (List.replicate (width - 2).toNat '─') ++ "┐\n"
    let middle := String.join (List.replicate (height - 2).toNat
      ("│" ++ String.mk (List.replicate (width - 2).toNat ' ') ++ "│\n"))
    let bottom := "└" ++ String.mk (List.replicate (width - 2).toNat '─') ++ "┘\n"
    top ++ middle ++ bottom

/-- Model of `LayoutManager.__compute_two_box_positions`:
`(left_x, right_x, horizontal_middle_gap)`. -/
def compute_two_box_positions (screen_width left_width right_width : Int) :
    Int × Int × Int :=
  let horizontal_middle_gap :=
    screen_width - (2 * SIDE_GAP + left_width + right_width)
  (SIDE_GAP, SIDE_GAP + left_width + horizontal_middle_gap,
    horizontal_middle_gap)

/-- Model of `LayoutManager.check_fit`: the standard layout fits iff the
bottom row fits horizontally (side gaps, both boxes and at least one column
between them) and the defrag box keeps at least 3 rows vertically. -/
def check_fit (screen_width screen_height : Int) : Bool :=
  let status := measure_text_block BOX_STATUS
  let info := measure_text_block BOX_INFORMATION
  let min_horizontal := 2 * SIDE_GAP + status.1 + 1 + info.1
  if screen_width < min_horizontal then false
  else
    let min_defrag_height := 3
    let min_vertical :=
      TOP_GAP + VERTICAL_MIDDLE_GAP + status.2 + BOTTON_GAP + min_defrag_height
    if screen_height < min_vertical then false
    else true

/-- The error message of `build_small_screen_error_layout`. -/
def smallScreenMessage : String := "Terminal too small for layout."

/-- Model of `LayoutManager.build_small_screen_error_layout`: one centered
text block with the too-small message, truncated to the screen width.
Python's `message[:screen_width]` is modelled for the reachable case of a
non-negative width (curses never reports a negative dimension). -/
def build_small_screen_error_layout (screen_width screen_height : Int) :
    List TextBlock :=
  let message := String.mk (smallScreenMessage.toList.take screen_width.toNat)
  let origin_x := max 0 ((screen_width - message.length) / 2)
  let origin_y := max 0 (screen_height / 2)
  [⟨message, origin_x, origin_y, .BOX_SMALL_SCREEN_ERROR⟩]

/-- Model of `LayoutManager.build_layout`: the defrag box on top, the status
box bottom-left and the information box bottom-right. -/
def build_layout (screen_width screen_height : Int) : List TextBlock :=
  let status := measure_text_block BOX_STATUS
  let info := measure_text_block BOX_INFORMATION
  let boxes_y_position := screen_height - (status.2 + BOTTON_GAP)
  let positions := compute_two_box_positions screen_width status.1 info.1
  let box_defrag_width := status.1 + positions.2.2 + info.1
  let box_defrag_height :=
    screen_height - (TOP_GAP + VERTICAL_MIDDLE_GAP + status.2 + BOTTON_GAP)
  let box_defrag := build_box box_defrag_width box_defrag_height
  [⟨box_defrag, positions.1, TOP_GAP, .BOX_DEFRAG⟩,
   ⟨BOX_STATUS, positions.1, boxes_y_position, .BOX_STATUS⟩,
   ⟨BOX_INFORMATION, positions.2.1, boxes_y_position, .BOX_INFORMATION⟩]

/-- The mutable fields of `ViewConnector` (`view.py`).  `stdscr_bound` is
whether `self.__stdscr` is not `None`; `view_ready` is the shared
`control.view_ready` flag the connector sets through `__view_is_ready`. -/
structure ViewState where
  stdscr_bound : Bool
  screen_height : Int
  screen_width : Int
  capacity : Int
  pixel_buffer : PixelBuffer
  view_ready : Bool
  defrag_start_x : Int
  defrag_start_y : Int
  defrag_end_x : Int
  defrag_end_y : Int
  status_cluster_counter_start_x : Int
  status_cluster_counter_start_y : Int
  cluster_counter : Int
  status_percentage_bar_start_x : Int
  status_percentage_bar_start_y : Int
  status_percentage_bar_blocks_added : Int
deriving DecidableEq

/-- The character-by-character loop of `ViewConnector.__draw_text_block`:
printable characters are drawn through `__draw_pixel` (recording the defrag
box extent as it goes), non-printable ones (the newlines of the templates)
move to the next row.  `fail` tells, per coordinate, whether the `addch`
inside `__draw_pixel` raises. -/
def draw_text_block_go (color : PixelColor) (origin_x : Int) (box : BoxKind)
    (fail : Coordinate → Bool) :
    List Char → ViewState → Surface → Int → Int → ViewState × Surface
  | [], s, surf, _, _ => (s, surf)
  | ch :: rest, s, surf, x, y =>
    if pyIsPrintable ch = false then
      let s1 := if box = BoxKind.BOX_DEFRAG then { s with defrag_end_y := y } else s
      draw_text_block_go color origin_x box fail rest s1 surf origin_x (y + 1)
    else
      let r := draw_pixel s.screen_width s.screen_height s.pixel_buffer surf
        [ch] color x y (fail (x, y))
      let s1 := { s with pixel_buffer := r.1 }
      let s2 := if box = BoxKind.BOX_DEFRAG then { s1 with defrag_end_x := x } else s1
      draw_text_block_go color origin_x box fail rest s2 r.2.1 (x + 1) y

/-- Model of `ViewConnector.__draw_text_block`: records the defrag interior
origin or the status-box sub-origins, then draws the text. -/
def draw_text_block (text : String) (color : PixelColor)
    (origin_x origin_y : Int) (box : BoxKind) (fail : Coordinate → Bool)
    (s : ViewState) (surf : Surface) : ViewState × Surface :=
  let s1 :=
    if box = BoxKind.BOX_DEFRAG then
      { s with defrag_start_x := origin_x + 1, defrag_start_y := origin_y + 1 }
    else s
  let s2 :=
    if box = BoxKind.BOX_STATUS then
      { s1 with
        status_cluster_counter_start_x := origin_x + CLUSTER_COUNT_ORIGIN_X_DELTA,
        status_cluster_counter_start_y := origin_y + CLUSTER_COUNT_ORIGIN_Y_DELTA,
        status_percentage_bar_start_x := origin_x + PERCENTAGE_BAR_ORIGIN_X_DELTA,
        status_percentage_bar_start_y := origin_y + PERCENTAGE_BAR_ORIGIN_Y_DELTA }
    else s1
  draw_text_block_go color origin_x box fail text.toList s2 surf origin_x origin_y

/-- The `for block in blocks` loop of `ViewConnector.__draw_layout`:
draw every block in the dominant color (WHITE). -/
def draw_blocks (blocks : List TextBlock) (fail : Coordinate → Bool)
    (s : ViewState) (surf : Surface) : ViewState × Surface :=
  blocks.foldl
    (fun acc b =>
      draw_text_block b.text PixelColor.WHITE b.origin_x b.origin_y b.kind fail
        acc.1 acc.2)
    (s, surf)

/-- Model of `ViewConnector.__draw_layout`: draw every block of the computed
layout, then recompute the capacity from the defrag box extent. -/
def draw_layout (s : ViewState) (surf : Surface) (fail : Coordinate → Bool) :
    ViewState × Surface :=
  let p := draw_blocks (build_layout s.screen_width s.screen_height) fail s surf
  ({ p.1 with capacity :=
      (p.1.defrag_end_x - p.1.defrag_start_x) *
        (p.1.defrag_end_y - p.1.defrag_start_y) }, p.2)

/-- Model of `stdscr.addstr(y, x, text, attrs)`: write the characters of
`text` at successive columns starting at `(x, y)`.  The model is the
successful write; the two `addstr` callers either ignore a curses error
(`__print_error_msg`) or are never the subject of a claim (`pulse`'s status
counter), so the failure path of `addstr` is not modelled. -/
def surf_addstr (surf : Surface) (y x : Int) : List Char → Surface
  | [] => surf
  | c :: rest => surf_addstr (surfWrite surf (x, y) c) y (x + 1) rest

/-- Model of `ViewConnector.__print_error_msg`: render the centered
too-small message blocks on the surface. -/
def print_error_msg (s : ViewState) (surf : Surface) : Surface :=
  (build_small_screen_error_layout s.screen_width s.screen_height).foldl
    (fun sf b => surf_addstr sf b.origin_y b.origin_x b.text.toList) surf

/-- The first statements of `ViewConnector.__handle_resize`: the readiness
gate is dropped, the dimensions are re-read from `stdscr.getmaxyx()`
(passed here as `newH`/`newW`), the pixel buffer is cleared and the
cluster counter reset. -/
def resize_reset_state (s : ViewState) (newH newW : Int) : ViewState :=
  { s with
    view_ready := false
    screen_height := newH
    screen_width := newW
    pixel_buffer := []
    cluster_counter := 0 }

/-- Model of `ViewConnector.__handle_resize`.  `newH`/`newW` are what
`stdscr.getmaxyx()` reports; `stdscr.clear()` empties the surface.  The
readiness gate is dropped first, dimensions are re-read, the pixel buffer
and the cluster counter are reset, and the gate is reopened only when
`check_fit` passes (after redrawing the layout, which also recomputes the
capacity); otherwise the too-small message is printed and the gate stays
closed. -/
def handle_resize (s : ViewState) (newH newW : Int)
    (fail : Coordinate → Bool) : ViewState × Surface :=
  let s3 := resize_reset_state s newH newW
  let surf1 : Surface := []
  if check_fit s3.screen_width s3.screen_height then
    let p := draw_layout s3 surf1 fail
    ({ p.1 with view_ready := true }, p.2)
  else
    (s3, print_error_msg s3 surf1)

/-- Model of `ViewConnector.__get_coordinates`: repeatedly draw a random
`(x, y)` inside the defrag interior (`randrange(start, end)` is modelled as
`start + r % (end - start)`, the oracle supplying `(r_y, r_x)` for each
iteration) until one is found that is not a key of the pixel buffer.  The
source loop is `while True` with no other exit; `fuel` bounds how many
iterations of that loop the model unrolls, `none` meaning the loop is still
running after `fuel` iterations. -/
def get_coordinates (s : ViewState) :
    Nat → (Nat → Nat × Nat) → Option Coordinate
  | 0, _ => none
  | Nat.succ n, o =>
    let y : Int := s.defrag_start_y +
      (((o 0).1 % (s.defrag_end_y - s.defrag_start_y).toNat : Nat) : Int)
    let x : Int := s.defrag_start_x +
      (((o 0).2 % (s.defrag_end_x - s.defrag_start_x).toNat : Nat) : Int)
    if alistLookup s.pixel_buffer (x, y) = none then some (x, y)
    else get_coordinates s n (fun i => o (i + 1))

/-- Model of the f-string `f"{n:06d}"` for the non-negative counter values
the program produces. -/
def format_counter (n : Int) : List Char :=
  let ds := (toString n.natAbs).toList
  List.replicate (6 - ds.length) '0' ++ ds

/-- The `while` loop of `ViewConnector._update_progress_bar`: draw filled
blocks until the visual bar catches up with the logical progress.  The loop
body runs at most 72 times from any reachable state (blocks never exceed
`BAR_WIDTH = 72`), so 73 units of fuel always suffice. -/
def bar_blocks_loop (sx sy : Int) :
    Nat → Surface → Int → Int → Surface × Int
  | 0, surf, current, _ => (surf, current)
  | Nat.succ n, surf, current, target =>
    if current < target ∧ current < 72 then
      bar_blocks_loop sx sy n (surfWrite surf (sx + current, sy) '▓')
        (current + 1) target
    else (surf, current)

/-- Model of `ViewConnector._update_progress_bar`.  CPython computes
`int(min(counter, capacity) / capacity * 72)` in floating point and raises
`ZeroDivisionError` when the capacity is 0; the model uses the exact
integer value (equal for every state this development evaluates) and is
total, no claim concerning the bar at capacity 0 is made. -/
def update_progress_bar (s : ViewState) (surf : Surface) :
    ViewState × Surface :=
  let target : Int := 72 * min s.cluster_counter s.capacity / s.capacity
  let r := bar_blocks_loop s.status_percentage_bar_start_x
    s.status_percentage_bar_start_y 73 surf
    s.status_percentage_bar_blocks_added target
  ({ s with status_percentage_bar_blocks_added := r.2 }, r.1)

/-- Model of `ViewConnector.pulse`.  Raising `RuntimeError` when
`self.__stdscr is None` is modelled as `Except.error` carrying the state
and surface unchanged (the exception fires before any mutation).  When the
cluster counter has reached the capacity the code only drops the readiness
flag (the `TODO: What to do next?` branch) and falls through to drawing one
more random pixel, updating the status counter text and the progress bar.
`none` means `__get_coordinates` was still looping after `fuel`
iterations. -/
def pulse (s : ViewState) (surf : Surface) (coordRng : Nat → Nat × Nat)
    (pixelRng colorRng : Nat) (fail : Bool) (fuel : Nat) :
    Option (Except (ViewState × Surface) (ViewState × Surface)) :=
  if s.stdscr_bound = false then some (Except.error (s, surf))
  else
    let s1 :=
      if s.capacity ≤ s.cluster_counter then { s with view_ready := false }
      else s
    match get_coordinates s1 fuel coordRng with
    | none => none
    | some (x, y) =>
      let px := get_pixel pixelRng
      let color := get_color colorRng
      let r := draw_pixel s1.screen_width s1.screen_height s1.pixel_buffer
        surf [px] color x y fail
      let s2 := { s1 with
        pixel_buffer := r.1, cluster_counter := s1.cluster_counter + 1 }
      let surf2 := surf_addstr r.2.1 s2.status_cluster_counter_start_y
        s2.status_cluster_counter_start_x (format_counter s2.cluster_counter)
      let p := update_progress_bar s2 surf2
      some (Except.ok p)

/-- Observable events of a background scheduler loop: reads of the shared
flags and invocations of `view.pulse()`. -/
inductive SchedEvent where
  | checkStop (b : Bool)
  | waitStop (b : Bool)
  | checkReady (b : Bool)
  | checkRunning (b : Bool)
  | tick
deriving DecidableEq

/-- Trace semantics of `PixelSpawner.run` (`tasks.py`).  The oracle gives,
for each loop iteration, the values the environment returns for
`control.should_stop()`, `control.wait_for_stop(...)` and
`control.is_view_ready()`; the result is the sequence of observations and
ticks the loop performs within `fuel` iterations. -/
def spawner_run : Nat → (Nat → Bool × Bool × Bool) → List SchedEvent
  | 0, _ => []
  | Nat.succ n, o =>
    let obs := o 0
    if obs.1 then [SchedEvent.checkStop true]
    else if obs.2.1 then [SchedEvent.checkStop false, SchedEvent.waitStop true]
    else if obs.2.2 then
      SchedEvent.checkStop false :: SchedEvent.waitStop false ::
        SchedEvent.checkReady true :: SchedEvent.tick ::
          spawner_run n (fun i => o (i + 1))
    else
      SchedEvent.checkStop false :: SchedEvent.waitStop false ::
        SchedEvent.checkReady false :: spawner_run n (fun i => o (i + 1))

/-- Trace semantics of `Job.run` (`main.py`): each iteration reads
`keep_running` and, when it is true, sleeps and then calls `pulse()`
unconditionally — the loop never reads `view_ready`. -/
def job_run : Nat → (Nat → Bool) → List SchedEvent
  | 0, _ => []
  | Nat.succ n, o =>
    if o 0 then
      SchedEvent.checkRunning true :: SchedEvent.tick ::
        job_run n (fun i => o (i + 1))
    else [SchedEvent.checkRunning false]

/-- Whether an event is an observation of the stop signal being set. -/
def stopObserved (e : SchedEvent) : Bool :=
  e = SchedEvent.checkStop true ∨ e = SchedEvent.waitStop true

/-- Checks that within a trace, any observation of the stop signal is the
last event: nothing — in particular no tick — happens after it. -/
def stopExitsImmediately : List SchedEvent → Bool
  | [] => true
  | e :: rest =>
    (if stopObserved e then rest.isEmpty else true) && stopExitsImmediately rest

/-- Checks that every tick of a trace is immediately preceded by an
observation of the readiness gate being open; `prev` is the event before
the trace, if any. -/
def ticksGated (prev : Option SchedEvent) : List SchedEvent → Bool
  | [] => true
  | e :: rest =>
    (if e = SchedEvent.tick then prev = some (SchedEvent.checkReady true)
     else true) && ticksGated (some e) rest

/-- The buffer/surface invariant of the spec: a coordinate is a key of the
pixel buffer iff the render surface currently shows non-blank content
there. -/
def BufferSurfaceInv (buf : PixelBuffer) (surf : Surface) : Prop :=
  ∀ k : Coordinate, (alistLookup buf k).isSome = true ↔ surfBlank surf k = false

/-- States that `__get_coordinates` never returns on the given state, no
matter how many loop iterations run nor what the random stream yields:
the `while True` loop has no exhaustion exit and no sentinel result. -/
def get_coordinates_diverges (s : ViewState) : Prop :=
  ∀ (fuel : Nat) (o : Nat → Nat × Nat), get_coordinates s fuel o = none

/-- An unbound `ViewConnector` state right after `__init__`. -/
def initialViewState : ViewState :=
  { stdscr_bound := false, screen_height := 0, screen_width := 0,
    capacity := 0, pixel_buffer := [], view_ready := false,
    defrag_start_x := 0, defrag_start_y := 0, defrag_end_x := 0,
    defrag_end_y := 0, status_cluster_counter_start_x := 0,
    status_cluster_counter_start_y := 0, cluster_counter := 0,
    status_percentage_bar_start_x := 0, status_percentage_bar_start_y := 0,
    status_percentage_bar_blocks_added := 0 }

/-- The pixel buffer with `('a', RED)` recorded at the origin. -/
def c2buffer : PixelBuffer := [((0, 0), ('a', PixelColor.RED))]

/-- A mid-drawing state: 2x2 defrag region with one occupied cell. -/
def partialRegionState : ViewState :=
  { initialViewState with
    stdscr_bound := true,
    pixel_buffer := [((0, 0), ('a', PixelColor.RED))],
    defrag_start_x := 0, defrag_start_y := 0,
    defrag_end_x := 2, defrag_end_y := 2 }

/-- A fully occupied 2x2 defrag region. -/
def fullRegionState : ViewState :=
  { initialViewState with
    stdscr_bound := true,
    pixel_buffer :=
      [((0, 0), ('a', PixelColor.RED)), ((1, 0), ('b', PixelColor.GREEN)),
       ((0, 1), ('c', PixelColor.YELLOW)), ((1, 1), ('d', PixelColor.BLUE))],
    defrag_start_x := 0, defrag_start_y := 0,
    defrag_end_x := 2, defrag_end_y := 2 }

/-- A pre-resize state whose capacity remembers a larger screen. -/
def staleCapacityState : ViewState :=
  { initialViewState with stdscr_bound := true, capacity := 999 }

/-- A bound view whose 2x2 drawable region has reached full occupancy of
the cluster counter (`cluster_counter = capacity = 4`), one cell still
free in the buffer. -/
def atCapacityState : ViewState :=
  { stdscr_bound := true, screen_height := 10, screen_width := 10,
    capacity := 4,
    pixel_buffer := [((0, 0), ('a', PixelColor.RED))],
    view_ready := true,
    defrag_start_x := 0, defrag_start_y := 0,
    defrag_end_x := 2, defrag_end_y := 2,
    status_cluster_counter_start_x := 2,
    status_cluster_counter_start_y := 8,
    cluster_counter := 4,
    status_percentage_bar_start_x := 0,
    status_percentage_bar_start_y := 9,
    status_percentage_bar_blocks_added := 0 }

theorem alistLookup_insert_self {α β : Type} [DecidableEq α]
    (l : List (α × β)) (k : α) (v : β) :
    alistLookup (alistInsert l k v) k = some v := by
  simp [alistInsert, alistLookup]

theorem alistLookup_erase {α β : Type} [DecidableEq α]
    (l : List (α × β)) (k k' : α) :
    alistLookup (alistErase l k) k' =
      if k' = k then none else alistLookup l k' := by
  induction l with
  | nil => simp [alistErase, alistLookup]
  | cons kv rest ih =>
    obtain ⟨a, b⟩ := kv
    by_cases hak : a = k
    · subst hak
      by_cases hk' : k' = a
      · subst hk'
        simpa [alistErase, alistLookup] using ih
      · simp only [alistErase, List.filter] at ih ⊢
        simp only [if_neg hk'] at ih ⊢
        have : ¬ a = k' := fun h => hk' h.symm
        simpa [alistLookup, this] using ih
    · by_cases hk' : a = k'
      · have hne : ¬ k' = k := by
          rw [← hk']
          exact hak
        simp [alistErase, alistLookup, hak, hk', hne, List.filter]
      · simp only [alistErase, List.filter] at ih ⊢
        simp only [decide_not] at ih ⊢
        simp [alistLookup, hak, hk'] at ih ⊢
        exact ih

theorem alistLookup_insert_ne {α β : Type} [DecidableEq α]
    (l : List (α × β)) (k k' : α) (v : β) (h : k' ≠ k) :
    alistLookup (alistInsert l k v) k' = alistLookup l k' := by
  have hkk : ¬ k = k' := fun h' => h h'.symm
  simp [alistInsert, alistLookup, hkk, alistLookup_erase, h]

theorem alistErase_of_lookup_none {α β : Type} [DecidableEq α]
    (l : List (α × β)) (k : α) (h : alistLookup l k = none) :
    alistErase l k = l := by
  induction l with
  | nil => rfl
  | cons kv rest ih =>
    obtain ⟨a, b⟩ := kv
    by_cases hak : a = k
    · simp [alistLookup, hak] at h
    · simp [alistLookup, hak] at h
      simp [alistErase, hak] at ih ⊢
      exact ih h

theorem alistErase_insert {α β : Type} [DecidableEq α]
    (l : List (α × β)) (k : α) (v : β) :
    alistErase (alistInsert l k v) k = alistErase l k := by
  simp [alistInsert, alistErase, List.filter_filter]

theorem draw_pixel_out_of_bounds (w h : Int) (buf : PixelBuffer)
    (surf : Surface) (px : List Char) (color : PixelColor) (x y : Int)
    (fail : Bool) (hb : ¬ (0 ≤ x ∧ x < w ∧ 0 ≤ y ∧ y < h)) :
    draw_pixel w h buf surf px color x y fail = (buf, surf, false) := by
  simp only [draw_pixel]
  rw [if_pos hb]

theorem draw_pixel_invalid_px (w h : Int) (buf : PixelBuffer)
    (surf : Surface) (px : List Char) (color : PixelColor) (x y : Int)
    (fail : Bool) (hv : ¬ (px.length = 1 ∧ px.all pyIsPrintable = true)) :
    draw_pixel w h buf surf px color x y fail = (buf, surf, false) := by
  by_cases hb : 0 ≤ x ∧ x < w ∧ 0 ≤ y ∧ y < h
  · simp only [draw_pixel]
    rw [if_neg (not_not_intro hb), if_pos hv]
  · exact draw_pixel_out_of_bounds w h buf surf px color x y fail hb

theorem draw_pixel_taken (w h : Int) (buf : PixelBuffer) (surf : Surface)
    (c : Char) (color : PixelColor) (x y : Int) (fail : Bool)
    (hsome : (alistLookup buf (x, y)).isSome = true) :
    draw_pixel w h buf surf [c] color x y fail = (buf, surf, false) := by
  by_cases hb : 0 ≤ x ∧ x < w ∧ 0 ≤ y ∧ y < h
  · by_cases hv : [c].length = 1 ∧ [c].all pyIsPrintable = true
    · simp only [draw_pixel]
      rw [if_neg (not_not_intro hb), if_neg (not_not_intro hv)]
      simp [hsome]
    · exact draw_pixel_invalid_px w h buf surf [c] color x y fail hv
  · exact draw_pixel_out_of_bounds w h buf surf [c] color x y fail hb

/-- Characterization of a `__draw_pixel` call that reaches the `try` block:
in bounds, printable glyph, coordinate free.  The buffer entry is added
(unless the glyph is a space), then rolled back when `addch` fails anywhere
but the bottom-right corner; the surface receives the character whenever
the write lands (including the corner quirk failure). -/
theorem draw_pixel_go (w h : Int) (buf : PixelBuffer) (surf : Surface)
    (c : Char) (color : PixelColor) (x y : Int) (fail : Bool)
    (hb : 0 ≤ x ∧ x < w ∧ 0 ≤ y ∧ y < h) (hc : pyIsPrintable c = true)
    (hk : alistLookup buf (x, y) = none) :
    draw_pixel w h buf surf [c] color x y fail =
      (if fail = true ∧ ((x, y) : Coordinate) ≠ (w - 1, h - 1) then
        (alistErase (if c ≠ ' ' then alistInsert buf (x, y) (c, color)
          else buf) (x, y), surf, true)
      else
        ((if c ≠ ' ' then alistInsert buf (x, y) (c, color) else buf),
          surfWrite surf (x, y) c, true)) := by
  have hv : [c].length = 1 ∧ [c].all pyIsPrintable = true := by simp [hc]
  have hnone : ¬ (alistLookup buf (x, y)).isSome = true := by simp [hk]
  simp only [draw_pixel]
  rw [if_neg (not_not_intro hb), if_neg (not_not_intro hv)]
  rcases fail with _ | _
  · simp [hk]
  · by_cases hcorner : ((x, y) : Coordinate) = (w - 1, h - 1)
    · rw [hcorner] at hk hnone
      simp [hnone, hcorner, hk]
    · simp [hnone, hcorner, hk]

/-- C9: `LayoutManager.check_fit` is monotone in both screen dimensions —
if a layout fits at `(w, h)` and the terminal only grows, it still fits. -/
theorem check_fit_monotone (w w' h h' : Int) (hw : w ≤ w') (hh : h ≤ h')
    (hfit : check_fit w h = true) : check_fit w' h' = true := by
  have hs : measure_text_block BOX_STATUS = (76, 11) := by decide
  have hi : measure_text_block BOX_INFORMATION = (76, 11) := by decide
  simp only [check_fit, hs, hi] at hfit ⊢
  norm_num [SIDE_GAP, TOP_GAP, VERTICAL_MIDDLE_GAP, BOTTON_GAP] at hfit ⊢
  omega

/-- Witness for C9 at a concrete pair of growing screen sizes. -/
theorem check_fit_monotone_witness : check_fit 200 50 = true :=
  check_fit_monotone 155 200 18 50 (by decide) (by decide) (by decide)

/-- C10: calling `pulse()` before `run()` has bound the curses screen
raises `RuntimeError` at once; the error carries the state and surface
unchanged because it fires before any mutation. -/
theorem pulse_unbound_raises (s : ViewState) (surf : Surface)
    (o : Nat → Nat × Nat) (p c : Nat) (fail : Bool) (fuel : Nat)
    (h : s.stdscr_bound = false) :
    pulse s surf o p c fail fuel = some (Except.error (s, surf)) := by
  simp [pulse, h]

/-- Witness for C10 on the freshly initialized state. -/
theorem pulse_unbound_raises_witness :
    pulse initialViewState [] (fun _ => (0, 0)) 0 0 false 0 =
      some (Except.error (initialViewState, [])) :=
  pulse_unbound_raises initialViewState [] (fun _ => (0, 0)) 0 0 false 0 rfl

/-- C8: `__get_pixel` only produces single printable non-whitespace
characters (the `PRINTABLES` alphabet), and `__draw_pixel` ignores — no
buffer change, no surface change, no write — any candidate that is not a
single printable character. -/
theorem glyphs_single_printable_nonspace :
    (∀ n : Nat, get_pixel n ∈ PRINTABLES ∧ pyIsPrintable (get_pixel n) = true ∧
      pyIsWhitespace (get_pixel n) = false) ∧
    (∀ (w h : Int) (buf : PixelBuffer) (surf : Surface) (px : List Char)
      (color : PixelColor) (x y : Int) (fail : Bool),
      ¬ (px.length = 1 ∧ px.all pyIsPrintable = true) →
      draw_pixel w h buf surf px color x y fail = (buf, surf, false)) := by
  constructor
  · have hall : ∀ i, i < 94 → PRINTABLES.getD i '0' ∈ PRINTABLES ∧
        pyIsPrintable (PRINTABLES.getD i '0') = true ∧
        pyIsWhitespace (PRINTABLES.getD i '0') = false := by decide
    intro n
    have hlen : PRINTABLES.length = 94 := by decide
    have hmod : n % PRINTABLES.length < 94 := by
      rw [hlen]
      exact Nat.mod_lt _ (by norm_num)
    simpa [get_pixel] using hall _ hmod
  · intro w h buf surf px color x y fail hinvalid
    exact draw_pixel_invalid_px w h buf surf px color x y fail hinvalid

/-- Witness for C8: a two-character candidate leaves buffer, surface and
write flag untouched. -/
theorem glyphs_single_printable_nonspace_witness :
    draw_pixel 5 5 [] [] ['a', 'b'] PixelColor.RED 0 0 false =
      ([], [], false) :=
  glyphs_single_printable_nonspace.2 5 5 [] [] ['a', 'b'] PixelColor.RED 0 0
    false (by decide)

/-- C2 (amended): `__draw_pixel` invokes the Render Port write exactly when
the coordinate is in bounds, the candidate is a single printable character,
and the coordinate is not already a key of the pixel buffer — whether or
not the stored cell equals the new one.  In particular re-drawing a cell
identical to the stored one performs no write and changes nothing. -/
theorem draw_pixel_write_iff (w h : Int) (buf : PixelBuffer) (surf : Surface)
    (px : List Char) (color : PixelColor) (x y : Int) (fail : Bool) :
    ((draw_pixel w h buf surf px color x y fail).2.2 = true ↔
      ((0 ≤ x ∧ x < w ∧ 0 ≤ y ∧ y < h) ∧ px.length = 1 ∧
        px.all pyIsPrintable = true ∧ alistLookup buf (x, y) = none)) ∧
    (∀ c : Char, px = [c] → alistLookup buf (x, y) = some (c, color) →
      draw_pixel w h buf surf px color x y fail = (buf, surf, false)) := by
  constructor
  · by_cases hb : 0 ≤ x ∧ x < w ∧ 0 ≤ y ∧ y < h
    · by_cases hv : px.length = 1 ∧ px.all pyIsPrintable = true
      · obtain ⟨c, rfl⟩ : ∃ c, px = [c] := by
          rcases px with _ | ⟨c, _ | ⟨d, rest⟩⟩
          · simp at hv
          · exact ⟨c, rfl⟩
          · simp at hv
        have hc : pyIsPrintable c = true := by simpa using hv.2
        by_cases hk : alistLookup buf (x, y) = none
        · rw [draw_pixel_go w h buf surf c color x y fail hb hc hk]
          constructor
          · intro _
            exact ⟨hb, hv.1, hv.2, hk⟩
          · intro _
            by_cases hsplit :
                fail = true ∧ ((x, y) : Coordinate) ≠ (w - 1, h - 1)
            · rw [if_pos hsplit]
            · rw [if_neg hsplit]
        · have hsome : (alistLookup buf (x, y)).isSome = true := by
            rcases hhh : alistLookup buf (x, y) with _ | v <;> simp_all
          rw [draw_pixel_taken w h buf surf c color x y fail hsome]
          simp [hk]
      · rw [draw_pixel_invalid_px w h buf surf px color x y fail hv]
        constructor
        · intro habs
          simp at habs
        · intro habs
          exact absurd ⟨habs.2.1, habs.2.2.1⟩ hv
    · rw [draw_pixel_out_of_bounds w h buf surf px color x y fail hb]
      constructor
      · intro habs
        simp at habs
      · intro habs
        exact absurd habs.1 hb
  · intro c hpx hstored
    subst hpx
    have hsome : (alistLookup buf (x, y)).isSome = true := by
      rw [hstored]
      rfl
    exact draw_pixel_taken w h buf surf c color x y fail hsome

/-- Witness for C2's amended statement: a fresh in-bounds cell is written. -/
theorem draw_pixel_write_iff_witness :
    (draw_pixel 5 5 [] [] ['b'] PixelColor.BLUE 0 0 false).2.2 = true := by
  have h := draw_pixel_write_iff 5 5 [] [] ['b'] PixelColor.BLUE 0 0 false
  exact h.1.mpr (by decide)

/-- Counterexample to C2 as stated: the buffer holds `('a', RED)` at
`(0, 0)`, a different cell `('b', BLUE)` is rendered there, yet no Render
Port write happens and the buffer keeps the old cell — the skip is keyed on
occupancy, not on value difference. -/
theorem draw_pixel_skips_differing_cell :
    draw_pixel 5 5 c2buffer [] ['b'] PixelColor.BLUE 0 0 false =
      (c2buffer, [], false) ∧
    alistLookup c2buffer (0, 0) ≠ some ('b', PixelColor.BLUE) := by
  constructor
  · decide
  · decide

/-- C3: when the Render Port write fails, the buffer entry is rolled back
unless the failure is at the last addressable cell `(w-1, h-1)`, where the
error is the curses bottom-right quirk: the entry (for a non-space glyph)
is kept and the character has landed on the surface. -/
theorem draw_pixel_failure_rollback (w h : Int) (buf : PixelBuffer)
    (surf : Surface) (c : Char) (color : PixelColor) (x y : Int)
    (hb : 0 ≤ x ∧ x < w ∧ 0 ≤ y ∧ y < h)
    (hc : pyIsPrintable c = true)
    (hk : alistLookup buf (x, y) = none) :
    (draw_pixel w h buf surf [c] color x y true).1 =
      (if ((x, y) : Coordinate) = (w - 1, h - 1) ∧ c ≠ ' ' then
        alistInsert buf (x, y) (c, color)
      else buf) ∧
    (((x, y) : Coordinate) = (w - 1, h - 1) →
      (draw_pixel w h buf surf [c] color x y true).2.1 =
        surfWrite surf (x, y) c) := by
  have herase : alistErase buf (x, y) = buf := alistErase_of_lookup_none _ _ hk
  rw [draw_pixel_go w h buf surf c color x y true hb hc hk]
  by_cases hcorner : ((x, y) : Coordinate) = (w - 1, h - 1)
  · have hsplit : ¬ (true = true ∧ ((x, y) : Coordinate) ≠ (w - 1, h - 1)) := by
      simp [hcorner]
    rw [if_neg hsplit]
    refine ⟨?_, fun _ => rfl⟩
    by_cases hsp : c = ' '
    · simp [hcorner, hsp]
    · simp [hcorner, hsp]
  · have hsplit : (true = true ∧ ((x, y) : Coordinate) ≠ (w - 1, h - 1)) :=
      ⟨rfl, hcorner⟩
    rw [if_pos hsplit]
    have hrhs : ¬ (((x, y) : Coordinate) = (w - 1, h - 1) ∧ c ≠ ' ') := by
      simp [hcorner]
    rw [if_neg hrhs]
    refine ⟨?_, fun habs => absurd habs hcorner⟩
    by_cases hsp : c = ' '
    · simp [hsp, herase]
    · simp [hsp, alistErase_insert, herase]

/-- Witness for C3 at the bottom-right corner of a 2x2 screen: the failed
write is kept. -/
theorem draw_pixel_failure_rollback_witness :
    (draw_pixel 2 2 [] [] ['z'] PixelColor.RED 1 1 true).1 =
      alistInsert [] (1, 1) ('z', PixelColor.RED) := by
  have h := draw_pixel_failure_rollback 2 2 [] [] 'z' PixelColor.RED 1 1
    (by decide) (by decide) rfl
  rw [h.1]
  decide

theorem surfBlank_write_self (surf : Surface) (k : Coordinate) (c : Char) :
    surfBlank (surfWrite surf k c) k = decide (c = ' ') := by
  simp [surfBlank, surfWrite, alistLookup_insert_self]

theorem surfBlank_write_ne (surf : Surface) (k k' : Coordinate) (c : Char)
    (h : k' ≠ k) :
    surfBlank (surfWrite surf k c) k' = surfBlank surf k' := by
  simp [surfBlank, surfWrite, alistLookup_insert_ne _ _ _ _ h]

/-- C7: every `__draw_pixel` call preserves the buffer/surface invariant
(under the spec's reading of the bottom-right quirk, where the failed
corner write has in fact landed), and drawing the space character never
adds a buffer entry for the coordinate. -/
theorem draw_pixel_preserves_buffer_surface_inv (w h : Int)
    (buf : PixelBuffer) (surf : Surface) (px : List Char)
    (color : PixelColor) (x y : Int) (fail : Bool) :
    (BufferSurfaceInv buf surf →
      BufferSurfaceInv (draw_pixel w h buf surf px color x y fail).1
        (draw_pixel w h buf surf px color x y fail).2.1) ∧
    (px = [' '] →
      alistLookup (draw_pixel w h buf surf px color x y fail).1 (x, y) =
        alistLookup buf (x, y)) := by
  by_cases hb : 0 ≤ x ∧ x < w ∧ 0 ≤ y ∧ y < h
  case neg =>
    rw [draw_pixel_out_of_bounds w h buf surf px color x y fail hb]
    exact ⟨fun hinv => hinv, fun _ => rfl⟩
  by_cases hv : px.length = 1 ∧ px.all pyIsPrintable = true
  case neg =>
    rw [draw_pixel_invalid_px w h buf surf px color x y fail hv]
    exact ⟨fun hinv => hinv, fun _ => rfl⟩
  obtain ⟨c, rfl⟩ : ∃ c, px = [c] := by
    rcases px with _ | ⟨c, _ | ⟨d, rest⟩⟩
    · simp at hv
    · exact ⟨c, rfl⟩
    · simp at hv
  have hc : pyIsPrintable c = true := by simpa using hv.2
  by_cases hk : alistLookup buf (x, y) = none
  case neg =>
    have hsome : (alistLookup buf (x, y)).isSome = true := by
      rcases hhh : alistLookup buf (x, y) with _ | v <;> simp_all
    rw [draw_pixel_taken w h buf surf c color x y fail hsome]
    exact ⟨fun hinv => hinv, fun _ => rfl⟩
  rw [draw_pixel_go w h buf surf c color x y fail hb hc hk]
  by_cases hsplit : fail = true ∧ ((x, y) : Coordinate) ≠ (w - 1, h - 1)
  · rw [if_pos hsplit]
    constructor
    · intro hinv k
      by_cases hkey : k = ((x, y) : Coordinate)
      · subst hkey
        have hbufN : alistLookup
            (alistErase (if c ≠ ' ' then alistInsert buf (x, y) (c, color)
              else buf) (x, y)) (x, y) = none := by
          rw [alistLookup_erase]
          simp
        rw [hbufN]
        have hblank : surfBlank surf (x, y) = true := by
          rcases hbl : surfBlank surf (x, y) with _ | _
          · exact absurd ((hinv (x, y)).mpr hbl) (by simp [hk])
          · rfl
        simp [hblank]
      · have hstep : alistLookup
            (alistErase (if c ≠ ' ' then alistInsert buf (x, y) (c, color)
              else buf) (x, y)) k = alistLookup buf k := by
          rw [alistLookup_erase, if_neg hkey]
          by_cases hsp : c = ' '
          · simp [hsp]
          · simp only [hsp, ne_eq, not_false_iff, if_true]
            exact alistLookup_insert_ne buf (x, y) k (c, color) hkey
        rw [hstep]
        exact hinv k
    · intro hpx
      have hsp : c = ' ' := by injection hpx
      subst hsp
      rw [alistLookup_erase]
      simp [hk]
  · rw [if_neg hsplit]
    constructor
    · intro hinv k
      by_cases hkey : k = ((x, y) : Coordinate)
      · subst hkey
        by_cases hsp : c = ' '
        · subst hsp
          rw [if_neg (by simp), surfBlank_write_self]
          simp [hk]
        · simp only [ne_eq, hsp, not_false_iff, if_true]
          rw [alistLookup_insert_self, surfBlank_write_self]
          simp [hsp]
      · have hstep : alistLookup
            (if c ≠ ' ' then alistInsert buf (x, y) (c, color) else buf) k =
              alistLookup buf k := by
          by_cases hsp : c = ' '
          · simp [hsp]
          · simp only [hsp, ne_eq, not_false_iff, if_true]
            exact alistLookup_insert_ne buf (x, y) k (c, color) hkey
        rw [hstep, surfBlank_write_ne surf (x, y) k c hkey]
        exact hinv k
    · intro hpx
      have hsp : c = ' ' := by injection hpx
      subst hsp
      simp

/-- Witness for C7: drawing a glyph on empty buffer and surface keeps the
invariant. -/
theorem draw_pixel_preserves_buffer_surface_inv_witness :
    BufferSurfaceInv (draw_pixel 3 3 [] [] ['q'] PixelColor.RED 1 1 false).1
      (draw_pixel 3 3 [] [] ['q'] PixelColor.RED 1 1 false).2.1 :=
  (draw_pixel_preserves_buffer_surface_inv 3 3 [] [] ['q'] PixelColor.RED
    1 1 false).1 (fun k => by simp [alistLookup, surfBlank])

/-- C5 (amended): whenever `__get_coordinates` returns, the coordinate is
inside the defrag drawable region and is not a key of the pixel buffer —
an occupied coordinate is never returned.  (The bounds hypotheses say the
region is non-empty, without which Python's `randrange` would raise.) -/
theorem get_coordinates_fresh (s : ViewState) (fuel : Nat)
    (o : Nat → Nat × Nat) (x y : Int)
    (hx : s.defrag_start_x < s.defrag_end_x)
    (hy : s.defrag_start_y < s.defrag_end_y)
    (h : get_coordinates s fuel o = some (x, y)) :
    s.defrag_start_x ≤ x ∧ x < s.defrag_end_x ∧
    s.defrag_start_y ≤ y ∧ y < s.defrag_end_y ∧
    alistLookup s.pixel_buffer (x, y) = none := by
  induction fuel generalizing o with
  | zero => simp [get_coordinates] at h
  | succ n ih =>
    simp only [get_coordinates] at h
    by_cases hfree : alistLookup s.pixel_buffer
        (s.defrag_start_x +
          (((o 0).2 % (s.defrag_end_x - s.defrag_start_x).toNat : Nat) : Int),
         s.defrag_start_y +
          (((o 0).1 % (s.defrag_end_y - s.defrag_start_y).toNat : Nat) : Int)) =
        none
    · rw [if_pos hfree] at h
      have hpair := Option.some.inj h
      have hx' : s.defrag_start_x +
          (((o 0).2 % (s.defrag_end_x - s.defrag_start_x).toNat : Nat) : Int) =
            x := congrArg Prod.fst hpair
      have hy' : s.defrag_start_y +
          (((o 0).1 % (s.defrag_end_y - s.defrag_start_y).toNat : Nat) : Int) =
            y := congrArg Prod.snd hpair
      have htx : 0 < (s.defrag_end_x - s.defrag_start_x).toNat := by omega
      have hty : 0 < (s.defrag_end_y - s.defrag_start_y).toNat := by omega
      have hmx : (o 0).2 % (s.defrag_end_x - s.defrag_start_x).toNat <
          (s.defrag_end_x - s.defrag_start_x).toNat := Nat.mod_lt _ htx
      have hmy : (o 0).1 % (s.defrag_end_y - s.defrag_start_y).toNat <
          (s.defrag_end_y - s.defrag_start_y).toNat := Nat.mod_lt _ hty
      refine ⟨by omega, by omega, by omega, by omega, ?_⟩
      rw [← hx', ← hy']
      exact hfree
    · rw [if_neg hfree] at h
      exact ih _ h

/-- Witness for C5's amended statement on the mid-drawing state. -/
theorem get_coordinates_fresh_witness :
    partialRegionState.defrag_start_x ≤ 1 ∧
    (1 : Int) < partialRegionState.defrag_end_x ∧
    partialRegionState.defrag_start_y ≤ 1 ∧
    (1 : Int) < partialRegionState.defrag_end_y ∧
    alistLookup partialRegionState.pixel_buffer (1, 1) = none :=
  get_coordinates_fresh partialRegionState 1 (fun _ => (1, 1)) 1 1
    (by decide) (by decide) (by decide)

theorem get_coordinates_none_of_all_taken (s : ViewState)
    (hall : ∀ r1 r2 : Nat, ¬ alistLookup s.pixel_buffer
      (s.defrag_start_x +
        ((r2 % (s.defrag_end_x - s.defrag_start_x).toNat : Nat) : Int),
       s.defrag_start_y +
        ((r1 % (s.defrag_end_y - s.defrag_start_y).toNat : Nat) : Int)) =
        none) :
    ∀ (fuel : Nat) (o : Nat → Nat × Nat), get_coordinates s fuel o = none := by
  intro fuel
  induction fuel with
  | zero => intro o; rfl
  | succ n ih =>
    intro o
    simp only [get_coordinates]
    rw [if_neg (hall (o 0).1 (o 0).2)]
    exact ih _

/-- Counterexample to C5 as stated: with every drawable coordinate
occupied, `__get_coordinates` blocks forever — it never fails with a
sentinel, contradicting the claimed pool-exhaustion behavior. -/
theorem get_coordinates_diverges_on_full_region :
    get_coordinates_diverges fullRegionState := by
  apply get_coordinates_none_of_all_taken
  intro r1 r2
  have hex : (fullRegionState.defrag_end_x -
      fullRegionState.defrag_start_x).toNat = 2 := rfl
  have hey : (fullRegionState.defrag_end_y -
      fullRegionState.defrag_start_y).toNat = 2 := rfl
  rw [hex, hey]
  have h1 : r1 % 2 = 0 ∨ r1 % 2 = 1 := by omega
  have h2 : r2 % 2 = 0 ∨ r2 % 2 = 1 := by omega
  rcases h1 with h1 | h1 <;> rcases h2 with h2 | h2 <;> rw [h1, h2] <;> decide

theorem spawner_run_stop_aux :
    ∀ (fuel : Nat) (o : Nat → Bool × Bool × Bool),
      stopExitsImmediately (spawner_run fuel o) = true := by
  intro fuel
  induction fuel with
  | zero => intro o; rfl
  | succ n ih =>
    intro o
    simp only [spawner_run]
    cases hs : (o 0).1
    · cases hw : (o 0).2.1
      · cases hr : (o 0).2.2
        · simp only [if_false, if_true, Bool.false_eq_true, if_neg]
          simp [stopExitsImmediately, stopObserved, ih (fun i => o (i + 1))]
        · simp [stopExitsImmediately, stopObserved, ih (fun i => o (i + 1))]
      · simp [stopExitsImmediately, stopObserved]
    · simp [stopExitsImmediately, stopObserved]

theorem spawner_run_gated_aux :
    ∀ (fuel : Nat) (o : Nat → Bool × Bool × Bool)
      (prev : Option SchedEvent),
      ticksGated prev (spawner_run fuel o) = true := by
  intro fuel
  induction fuel with
  | zero => intro o prev; rfl
  | succ n ih =>
    intro o prev
    simp only [spawner_run]
    cases hs : (o 0).1
    · cases hw : (o 0).2.1
      · cases hr : (o 0).2.2
        · simp [ticksGated, ih (fun i => o (i + 1))]
        · simp [ticksGated, ih (fun i => o (i + 1))]
      · simp [ticksGated]
    · simp [ticksGated]

/-- C6 (amended, for `PixelSpawner.run` of `tasks.py`): in every trace of
the loop, an observation of the stop signal is the last event (no further
tick follows), and every tick is immediately preceded by observing the
readiness gate open. -/
theorem spawner_run_stop_and_gate (fuel : Nat)
    (o : Nat → Bool × Bool × Bool) :
    stopExitsImmediately (spawner_run fuel o) = true ∧
    ticksGated none (spawner_run fuel o) = true :=
  ⟨spawner_run_stop_aux fuel o, spawner_run_gated_aux fuel o none⟩

/-- Counterexample to C6 as stated: the `Job.run` loop of `main.py` (also a
background scheduler loop driving `pulse`) ticks after observing only
`keep_running`; its trace contains a tick that is not preceded by any
readiness-gate observation. -/
theorem job_run_ticks_ungated :
    job_run 1 (fun _ => true) =
      [SchedEvent.checkRunning true, SchedEvent.tick] ∧
    ticksGated none (job_run 1 (fun _ => true)) = false :=
  ⟨rfl, rfl⟩

theorem draw_text_block_go_fields (color : PixelColor) (ox : Int)
    (box : BoxKind) (fail : Coordinate → Bool) :
    ∀ (text : List Char) (s : ViewState) (surf : Surface) (x y : Int),
      (draw_text_block_go color ox box fail text s surf x y).1.cluster_counter =
        s.cluster_counter ∧
      (draw_text_block_go color ox box fail text s surf x y).1.screen_width =
        s.screen_width ∧
      (draw_text_block_go color ox box fail text s surf x y).1.screen_height =
        s.screen_height ∧
      (draw_text_block_go color ox box fail text s surf x y).1.view_ready =
        s.view_ready ∧
      (draw_text_block_go color ox box fail text s surf x y).1.stdscr_bound =
        s.stdscr_bound := by
  intro text
  induction text with
  | nil =>
    intro s surf x y
    exact ⟨rfl, rfl, rfl, rfl, rfl⟩
  | cons ch rest ih =>
    intro s surf x y
    simp only [draw_text_block_go]
    by_cases hch : pyIsPrintable ch = false
    · rw [if_pos hch]
      by_cases hbox : box = BoxKind.BOX_DEFRAG
      · rw [if_pos hbox]
        exact ih _ _ _ _
      · rw [if_neg hbox]
        exact ih _ _ _ _
    · rw [if_neg hch]
      by_cases hbox : box = BoxKind.BOX_DEFRAG
      · rw [if_pos hbox]
        exact ih _ _ _ _
      · rw [if_neg hbox]
        exact ih _ _ _ _

theorem draw_text_block_fields (text : String) (color : PixelColor)
    (ox oy : Int) (box : BoxKind) (fail : Coordinate → Bool)
    (s : ViewState) (surf : Surface) :
    (draw_text_block text color ox oy box fail s surf).1.cluster_counter =
      s.cluster_counter ∧
    (draw_text_block text color ox oy box fail s surf).1.screen_width =
      s.screen_width ∧
    (draw_text_block text color ox oy box fail s surf).1.screen_height =
      s.screen_height ∧
    (draw_text_block text color ox oy box fail s surf).1.view_ready =
      s.view_ready ∧
    (draw_text_block text color ox oy box fail s surf).1.stdscr_bound =
      s.stdscr_bound := by
  simp only [draw_text_block]
  by_cases hd : box = BoxKind.BOX_DEFRAG
  · rw [if_pos hd, if_neg (by rw [hd]; intro hcon; cases hcon)]
    exact draw_text_block_go_fields color ox box fail text.toList _ surf ox oy
  · rw [if_neg hd]
    by_cases hs : box = BoxKind.BOX_STATUS
    · rw [if_pos hs]
      exact draw_text_block_go_fields color ox box fail text.toList _ surf ox oy
    · rw [if_neg hs]
      exact draw_text_block_go_fields color ox box fail text.toList _ surf ox oy

theorem draw_blocks_fields (fail : Coordinate → Bool) :
    ∀ (blocks : List TextBlock) (s : ViewState) (surf : Surface),
      ((draw_blocks blocks fail s surf).1.cluster_counter =
        s.cluster_counter) ∧
      ((draw_blocks blocks fail s surf).1.screen_width = s.screen_width) ∧
      ((draw_blocks blocks fail s surf).1.screen_height = s.screen_height) ∧
      ((draw_blocks blocks fail s surf).1.view_ready = s.view_ready) ∧
      ((draw_blocks blocks fail s surf).1.stdscr_bound = s.stdscr_bound) := by
  intro blocks
  induction blocks with
  | nil =>
    intro s surf
    exact ⟨rfl, rfl, rfl, rfl, rfl⟩
  | cons b rest ih =>
    intro s surf
    simp only [draw_blocks, List.foldl] at ih ⊢
    have h1 := ih (draw_text_block b.text PixelColor.WHITE b.origin_x
      b.origin_y b.kind fail s surf).1
      (draw_text_block b.text PixelColor.WHITE b.origin_x b.origin_y
        b.kind fail s surf).2
    have h2 := draw_text_block_fields b.text PixelColor.WHITE b.origin_x
      b.origin_y b.kind fail s surf
    exact ⟨h1.1.trans h2.1, h1.2.1.trans h2.2.1, h1.2.2.1.trans h2.2.2.1,
      h1.2.2.2.1.trans h2.2.2.2.1, h1.2.2.2.2.trans h2.2.2.2.2⟩

theorem draw_layout_eq (s : ViewState) (surf : Surface)
    (fail : Coordinate → Bool) :
    draw_layout s surf fail =
      ({ (draw_blocks (build_layout s.screen_width s.screen_height) fail
          s surf).1 with
        capacity :=
          ((draw_blocks (build_layout s.screen_width s.screen_height) fail
              s surf).1.defrag_end_x -
            (draw_blocks (build_layout s.screen_width s.screen_height) fail
              s surf).1.defrag_start_x) *
          ((draw_blocks (build_layout s.screen_width s.screen_height) fail
              s surf).1.defrag_end_y -
            (draw_blocks (build_layout s.screen_width s.screen_height) fail
              s surf).1.defrag_start_y) },
       (draw_blocks (build_layout s.screen_width s.screen_height) fail
          s surf).2) := rfl

theorem draw_layout_fields (s : ViewState) (surf : Surface)
    (fail : Coordinate → Bool) :
    (draw_layout s surf fail).1.cluster_counter = s.cluster_counter ∧
    (draw_layout s surf fail).1.screen_width = s.screen_width ∧
    (draw_layout s surf fail).1.screen_height = s.screen_height ∧
    (draw_layout s surf fail).1.capacity =
      ((draw_layout s surf fail).1.defrag_end_x -
        (draw_layout s surf fail).1.defrag_start_x) *
      ((draw_layout s surf fail).1.defrag_end_y -
        (draw_layout s surf fail).1.defrag_start_y) := by
  have h := draw_blocks_fields fail
    (build_layout s.screen_width s.screen_height) s surf
  have key : ∀ p : ViewState × Surface,
      (({ p.1 with capacity :=
          (p.1.defrag_end_x - p.1.defrag_start_x) *
            (p.1.defrag_end_y - p.1.defrag_start_y) }, p.2) :
        ViewState × Surface).1.cluster_counter = p.1.cluster_counter ∧
      (({ p.1 with capacity :=
          (p.1.defrag_end_x - p.1.defrag_start_x) *
            (p.1.defrag_end_y - p.1.defrag_start_y) }, p.2) :
        ViewState × Surface).1.screen_width = p.1.screen_width ∧
      (({ p.1 with capacity :=
          (p.1.defrag_end_x - p.1.defrag_start_x) *
            (p.1.defrag_end_y - p.1.defrag_start_y) }, p.2) :
        ViewState × Surface).1.screen_height = p.1.screen_height ∧
      (({ p.1 with capacity :=
          (p.1.defrag_end_x - p.1.defrag_start_x) *
            (p.1.defrag_end_y - p.1.defrag_start_y) }, p.2) :
        ViewState × Surface).1.capacity =
        ((({ p.1 with capacity :=
            (p.1.defrag_end_x - p.1.defrag_start_x) *
              (p.1.defrag_end_y - p.1.defrag_start_y) }, p.2) :
          ViewState × Surface).1.defrag_end_x -
         (({ p.1 with capacity :=
            (p.1.defrag_end_x - p.1.defrag_start_x) *
              (p.1.defrag_end_y - p.1.defrag_start_y) }, p.2) :
          ViewState × Surface).1.defrag_start_x) *
        ((({ p.1 with capacity :=
            (p.1.defrag_end_x - p.1.defrag_start_x) *
              (p.1.defrag_end_y - p.1.defrag_start_y) }, p.2) :
          ViewState × Surface).1.defrag_end_y -
         (({ p.1 with capacity :=
            (p.1.defrag_end_x - p.1.defrag_start_x) *
              (p.1.defrag_end_y - p.1.defrag_start_y) }, p.2) :
          ViewState × Surface).1.defrag_start_y) :=
    fun p => ⟨rfl, rfl, rfl, rfl⟩
  rw [draw_layout_eq]
  exact ⟨(key _).1.trans h.1, (key _).2.1.trans h.2.1,
    (key _).2.2.1.trans h.2.2.1, (key _).2.2.2⟩

theorem handle_resize_eq (s : ViewState) (newH newW : Int)
    (fail : Coordinate → Bool) :
    handle_resize s newH newW fail =
      (if check_fit (resize_reset_state s newH newW).screen_width
          (resize_reset_state s newH newW).screen_height then
        ({ (draw_layout (resize_reset_state s newH newW) [] fail).1 with
            view_ready := true },
         (draw_layout (resize_reset_state s newH newW) [] fail).2)
      else
        (resize_reset_state s newH newW,
         print_error_msg (resize_reset_state s newH newW) [])) := rfl

theorem resize_reset_dims (s : ViewState) (newH newW : Int) :
    check_fit (resize_reset_state s newH newW).screen_width
      (resize_reset_state s newH newW).screen_height =
    check_fit newW newH := rfl

theorem reopen_gate_fields (p : ViewState × Surface) :
    (({ p.1 with view_ready := true }, p.2) :
      ViewState × Surface).1.view_ready = true ∧
    (({ p.1 with view_ready := true }, p.2) :
      ViewState × Surface).1.screen_width = p.1.screen_width ∧
    (({ p.1 with view_ready := true }, p.2) :
      ViewState × Surface).1.screen_height = p.1.screen_height ∧
    (({ p.1 with view_ready := true }, p.2) :
      ViewState × Surface).1.cluster_counter = p.1.cluster_counter ∧
    (({ p.1 with view_ready := true }, p.2) :
      ViewState × Surface).1.capacity = p.1.capacity ∧
    (({ p.1 with view_ready := true }, p.2) :
      ViewState × Surface).1.defrag_start_x = p.1.defrag_start_x ∧
    (({ p.1 with view_ready := true }, p.2) :
      ViewState × Surface).1.defrag_start_y = p.1.defrag_start_y ∧
    (({ p.1 with view_ready := true }, p.2) :
      ViewState × Surface).1.defrag_end_x = p.1.defrag_end_x ∧
    (({ p.1 with view_ready := true }, p.2) :
      ViewState × Surface).1.defrag_end_y = p.1.defrag_end_y :=
  ⟨rfl, rfl, rfl, rfl, rfl, rfl, rfl, rfl, rfl⟩

theorem surf_addstr_lookup_lt (y : Int) :
    ∀ (text : List Char) (surf : Surface) (x : Int) (k : Coordinate),
      k.1 < x →
      alistLookup (surf_addstr surf y x text) k = alistLookup surf k := by
  intro text
  induction text with
  | nil =>
    intro surf x k hk
    rfl
  | cons c rest ih =>
    intro surf x k hk
    simp only [surf_addstr]
    rw [ih (surfWrite surf (x, y) c) (x + 1) k (by omega)]
    exact alistLookup_insert_ne surf (x, y) k c
      (by
        intro hcon
        rw [hcon] at hk
        simp at hk)

theorem surf_addstr_head (surf : Surface) (y x : Int) (c : Char)
    (rest : List Char) :
    alistLookup (surf_addstr surf y x (c :: rest)) (x, y) = some c := by
  simp only [surf_addstr]
  rw [surf_addstr_lookup_lt y rest (surfWrite surf (x, y) c) (x + 1) (x, y)
    (by simp)]
  exact alistLookup_insert_self surf (x, y) c

theorem print_error_msg_eq (s : ViewState) (newH newW : Int) :
    print_error_msg (resize_reset_state s newH newW) [] =
      surf_addstr [] (max 0 (newH / 2))
        (max 0 ((newW -
          ((String.mk (smallScreenMessage.toList.take newW.toNat)).length :
            Int)) / 2))
        (smallScreenMessage.toList.take newW.toNat) := rfl

theorem too_small_message_rendered (s : ViewState) (newH newW : Int)
    (hw : 1 ≤ newW) :
    ∀ b ∈ build_small_screen_error_layout newW newH,
      alistLookup (print_error_msg (resize_reset_state s newH newW) [])
        (b.origin_x, b.origin_y) = some 'T' := by
  intro b hb
  simp only [build_small_screen_error_layout, List.mem_singleton] at hb
  subst hb
  rw [print_error_msg_eq]
  obtain ⟨m, hm⟩ : ∃ m, newW.toNat = m + 1 := ⟨newW.toNat - 1, by omega⟩
  have hmsg : smallScreenMessage.toList.take newW.toNat =
      'T' :: (smallScreenMessage.toList.tail.take m) := by
    rw [hm]
    rfl
  rw [hmsg]
  exact surf_addstr_head [] _ _ 'T' _

/-- C4 (amended): every `__handle_resize` call re-reads the dimensions,
clears the pixel buffer and resets the draw counter, and reopens the
readiness gate iff the minimum-size validation passes (drawing either the
layout or the centered too-small message).  The capacity, however, is
recomputed only on the passing path (by `__draw_layout`, from the redrawn
defrag box extent); when validation fails the capacity keeps its previous,
now stale, value and the pixel buffer stays empty. -/
theorem handle_resize_contract (s : ViewState) (newH newW : Int)
    (fail : Coordinate → Bool) :
    ((handle_resize s newH newW fail).1.view_ready = check_fit newW newH) ∧
    (handle_resize s newH newW fail).1.screen_width = newW ∧
    (handle_resize s newH newW fail).1.screen_height = newH ∧
    (handle_resize s newH newW fail).1.cluster_counter = 0 ∧
    (check_fit newW newH = false →
      (handle_resize s newH newW fail).1.pixel_buffer = [] ∧
      (handle_resize s newH newW fail).1.capacity = s.capacity) ∧
    (check_fit newW newH = true →
      (handle_resize s newH newW fail).1.capacity =
        ((handle_resize s newH newW fail).1.defrag_end_x -
          (handle_resize s newH newW fail).1.defrag_start_x) *
        ((handle_resize s newH newW fail).1.defrag_end_y -
          (handle_resize s newH newW fail).1.defrag_start_y)) ∧
    (check_fit newW newH = false → 1 ≤ newW →
      ∀ b ∈ build_small_screen_error_layout newW newH,
        alistLookup (handle_resize s newH newW fail).2
          (b.origin_x, b.origin_y) = some 'T') := by
  by_cases hfit : check_fit newW newH = true
  · rw [handle_resize_eq, resize_reset_dims, if_pos hfit, hfit]
    have d := draw_layout_fields (resize_reset_state s newH newW) [] fail
    have k := reopen_gate_fields
      (draw_layout (resize_reset_state s newH newW) [] fail)
    refine ⟨k.1, k.2.1.trans d.2.1, k.2.2.1.trans d.2.2.1,
      k.2.2.2.1.trans d.1, fun hcon => absurd hcon (by decide), fun _ => ?_,
      fun hcon => absurd hcon (by decide)⟩
    refine (k.2.2.2.2.1.trans d.2.2.2).trans ?_
    rw [k.2.2.2.2.2.2.2.1, k.2.2.2.2.2.2.2.2, k.2.2.2.2.2.1,
      k.2.2.2.2.2.2.1]
  · have hfitF : check_fit newW newH = false := by
      rcases hcf : check_fit newW newH with _ | _
      · rfl
      · exact absurd hcf hfit
    rw [handle_resize_eq, resize_reset_dims, if_neg hfit, hfitF]
    exact ⟨rfl, rfl, rfl, rfl, fun _ => ⟨rfl, rfl⟩,
      fun hcon => absurd hcon (by decide),
      fun _ hw => too_small_message_rendered s newH newW hw⟩

/-- Counterexample to C4 as stated: resizing to a 10x5 terminal fails
`check_fit`, and `__handle_resize` then leaves the capacity at its stale
value 999 — impossible for any recomputation from the new 10x5 geometry,
whose drawable region has at most 50 cells. -/
theorem handle_resize_keeps_stale_capacity :
    check_fit 10 5 = false ∧
    (handle_resize staleCapacityState 5 10 (fun _ => false)).1.capacity =
      999 ∧
    ¬ ((999 : Int) ≤ 10 * 5) := by
  refine ⟨by decide, rfl, by decide⟩

/-- Witness for C4's amended statement: concrete resizes on both sides of
the validation. -/
theorem handle_resize_contract_witness :
    (handle_resize staleCapacityState 5 10 (fun _ => false)).1.view_ready =
      check_fit 10 5 ∧
    (handle_resize staleCapacityState 5 10 (fun _ => false)).1.capacity =
      staleCapacityState.capacity :=
  ⟨(handle_resize_contract staleCapacityState 5 10 (fun _ => false)).1,
    ((handle_resize_contract staleCapacityState 5 10 (fun _ => false)).2.2.2.2.1
      (by decide)).2⟩

/-- C1 (what the code actually does at the claimed SORTING transition):
a `pulse()` tick that finds `cluster_counter >= capacity` merely closes
the readiness gate (the `TODO: What to do next?` branch) and then keeps
drawing — it picks another random pixel and increments the counter to 5.
No SORTING state, no SortPlan and no sorting code exist in the
repository, so no permutation snapshot is constructed. -/
theorem pulse_at_capacity_keeps_drawing :
    ∃ p : ViewState × Surface,
      pulse atCapacityState [] (fun _ => (1, 1)) 0 0 false 1 =
        some (Except.ok p) ∧
      p.1.view_ready = false ∧ p.1.cluster_counter = 5 :=
  ⟨_, rfl, rfl, rfl⟩

end PSecret
